import Mathlib

/-!
Verification of the pykitops manifest core (Kitfile schema model,
validation and YAML serialization) against its natural-language
specification.  The definitions below are a shallow embedding of
src/kitops/modelkit/pydantic_kit.py and src/kitops/modelkit/kitfile.py.

Modelling conventions:
* YAML data trees (the output of yaml.safe_load restricted to the
  JSON-compatible subset) are the inductive type YVal.  Floats are kept
  as decimal text (integer part plus fraction digits); no float
  arithmetic is performed anywhere in the source, only rendering.
* Python exceptions are the inductive type PyErr.  The spec taxonomy
  maps as: PathNotFound = fileNotFoundError (raised raw from the model
  validator) or the ValueError raised by Kitfile.load for a missing
  file; InvalidPath and SchemaViolation = validationError / valueError;
  ParseError = yamlError.  typeError and attributeError are untyped
  host errors outside the spec taxonomy.
* The filesystem is a finite set of existing absolute paths (component
  lists) plus the current working directory.
-/

inductive YVal where
  | null
  | bool (b : Bool)
  | int (n : Int)
  | float (ip : Int) (frac : String)
  | str (s : String)
  | seq (l : List YVal)
  | map (m : List (String × YVal))

/-- Python rendering str(float) for a decimal float literal: integer
part, a dot, then the fraction digits (e.g. 1.0 renders as "1.0"). -/
def pyFloatStr (ip : Int) (frac : String) : String :=
  toString ip ++ "." ++ frac

inductive PyErr where
  | valueError (msg : String)
  | typeError (msg : String)
  | attributeError (msg : String)
  | fileNotFoundError (msg : String)
  | yamlError (msg : String)
  | rawYamlError
  | validationError (msg : String)
  deriving DecidableEq, Repr

/-- A filesystem snapshot: the current working directory (absolute,
as a component list) and the set of existing absolute paths. -/
structure FS where
  cwd : List String
  entries : List (List String)
  deriving DecidableEq, Repr

/-- Split a character list at slash separators (the components of a
posix path before dropping empty pieces). -/
def splitCompsAux : List Char → List Char → List String
  | [], acc => [String.mk acc.reverse]
  | c :: t, acc =>
      if c = '/' then String.mk acc.reverse :: splitCompsAux t []
      else splitCompsAux t (c :: acc)

/-- Split a path string into (is-absolute, components), the way
pathlib.PurePosixPath decomposes it: a leading slash marks an absolute
path, and empty components are dropped. -/
def parsePath (s : String) : Bool × List String :=
  ((match s.data with | [] => false | c :: _ => c == '/'),
   (splitCompsAux s.data []).filter (fun c => c != ""))

/-- Resolve a path against the working directory, as Path.exists does
for relative paths. -/
def resolveComps (fs : FS) (s : String) : List String :=
  let p := parsePath s
  if p.1 then p.2 else fs.cwd ++ p.2

/-- Path(s).exists() over the FS snapshot. -/
def pathExists (fs : FS) (s : String) : Bool :=
  fs.entries.contains (resolveComps fs s)

/-- Path(s).relative_to(cwd): succeeds exactly when cwd is a prefix of
the (absolute) path, returning the remaining components; pathlib raises
ValueError otherwise. -/
def relativeTo (comps cwd : List String) : Option (List String) :=
  if cwd.isPrefixOf comps then some (comps.drop cwd.length) else none

/-- PurePosixPath.as_posix of a relative component list (the empty list
renders as the current-directory dot, as pathlib does). -/
def asPosix (comps : List String) : String :=
  match comps with
  | [] => "."
  | _ => String.intercalate "/" comps

/-- BasePathModel.validate_path (pydantic_kit.py lines 12-22): the path
must exist (FileNotFoundError propagates raw out of the validator);
an absolute path is rewritten relative to cwd with posix separators,
and pathlib raising ValueError for a path outside cwd surfaces as a
pydantic ValidationError (pydantic wraps ValueError from validators).
Quote characters around the path in the source message are omitted. -/
def validate_path (fs : FS) (path : String) : Except PyErr String :=
  if pathExists fs path = false then
    .error (.fileNotFoundError ("Path " ++ path ++ " not found."))
  else if (parsePath path).1 then
    match relativeTo (parsePath path).2 fs.cwd with
    | some rest => .ok (asPosix rest)
    | none => .error (.validationError "Path must be relative to the current working directory.")
  else
    .ok path

/-- Pydantic lax validation of a plain str field: only a string is
accepted (numbers are not coerced without coerce_numbers_to_str). -/
def getStr (v : YVal) : Except PyErr String :=
  match v with
  | .str s => .ok s
  | _ => .error (.validationError "Input should be a valid string")

/-- Pydantic str field with coerce_numbers_to_str=True (the field-level
setting used for manifestVersion, Package.version and
ModelSection.version): a string passes unchanged, int and float input
is coerced to its decimal string form, anything else is rejected
(bool is not treated as a number by this coercion). -/
def getStrCoerce (v : YVal) : Except PyErr String :=
  match v with
  | .str s => .ok s
  | .int n => .ok (toString n)
  | .float ip frac => .ok (pyFloatStr ip frac)
  | _ => .error (.validationError "Input should be a valid string")

/-- Pydantic validation of list[str]: the input must be a sequence and
every element a string. -/
def getStrList (v : YVal) : Except PyErr (List String) :=
  match v with
  | .seq l => l.mapM getStr
  | _ => .error (.validationError "Input should be a valid list")

/-- Dictionary field lookup, as pydantic does on the input mapping
(unrecognized keys in the input are ignored by the default config). -/
def ylookup (m : List (String × YVal)) (k : String) : Option YVal :=
  (m.find? (fun e => e.1 == k)).map (fun e => e.2)

/-- Look up a required field and validate it; a missing required field
is a pydantic ValidationError. -/
def reqField (m : List (String × YVal)) (k : String)
    (f : YVal → Except PyErr α) : Except PyErr α :=
  match ylookup m k with
  | none => .error (.validationError ("Field required: " ++ k))
  | some v => f v

structure Package where
  name : String
  version : String
  description : String
  authors : List String
  deriving DecidableEq, Repr

/-- Package.model_validate (pydantic_kit.py lines 25-53).  Fields are
validated in declaration order; authors carries min_length=1; the
validate_authors model validator re-checks that every element is a
string, which always holds after the list[str] field validation. -/
def Package.validate (v : YVal) : Except PyErr Package :=
  match v with
  | .map m => do
      let nm ← reqField m "name" getStr
      let ver ← reqField m "version" getStrCoerce
      let ds ← reqField m "description" getStr
      let aus ← reqField m "authors" getStrList
      if aus.length < 1 then
        .error (.validationError "List should have at least 1 item")
      else
        .ok { name := nm, version := ver, description := ds, authors := aus }
  | _ => .error (.validationError "Input should be a valid dictionary")

/-- Field order below follows pydantic model_fields order: an inherited
field (path, from BasePathModel) keeps its original parent position
even when the subclass annotates it again. -/
structure CodeEntry where
  path : String
  description : String
  license : String
  deriving DecidableEq, Repr

/-- CodeEntry.model_validate (pydantic_kit.py lines 56-68): required
str fields, then the inherited validate_path model validator, which
replaces the stored path by its rewritten form. -/
def CodeEntry.validate (fs : FS) (v : YVal) : Except PyErr CodeEntry :=
  match v with
  | .map m => do
      let p ← reqField m "path" getStr
      let ds ← reqField m "description" getStr
      let lic ← reqField m "license" getStr
      let p2 ← validate_path fs p
      .ok { path := p2, description := ds, license := lic }
  | _ => .error (.validationError "Input should be a valid dictionary")

structure DatasetEntry where
  path : String
  name : String
  description : String
  license : String
  deriving DecidableEq, Repr

/-- DatasetEntry.model_validate (pydantic_kit.py lines 71-85). -/
def DatasetEntry.validate (fs : FS) (v : YVal) : Except PyErr DatasetEntry :=
  match v with
  | .map m => do
      let nm ← reqField m "name" getStr
      let p ← reqField m "path" getStr
      let ds ← reqField m "description" getStr
      let lic ← reqField m "license" getStr
      let p2 ← validate_path fs p
      .ok { path := p2, name := nm, description := ds, license := lic }
  | _ => .error (.validationError "Input should be a valid dictionary")

structure DocsEntry where
  path : String
  description : String
  deriving DecidableEq, Repr

/-- DocsEntry.model_validate (pydantic_kit.py lines 88-98). -/
def DocsEntry.validate (fs : FS) (v : YVal) : Except PyErr DocsEntry :=
  match v with
  | .map m => do
      let ds ← reqField m "description" getStr
      let p ← reqField m "path" getStr
      let p2 ← validate_path fs p
      .ok { path := p2, description := ds }
  | _ => .error (.validationError "Input should be a valid dictionary")

structure ModelPart where
  path : String
  name : String
  type : String
  deriving DecidableEq, Repr

/-- ModelPart.model_validate (pydantic_kit.py lines 101-113). -/
def ModelPart.validate (fs : FS) (v : YVal) : Except PyErr ModelPart :=
  match v with
  | .map m => do
      let nm ← reqField m "name" getStr
      let p ← reqField m "path" getStr
      let ty ← reqField m "type" getStr
      let p2 ← validate_path fs p
      .ok { path := p2, name := nm, type := ty }
  | _ => .error (.validationError "Input should be a valid dictionary")

/-- ModelSection stores, besides the validated field values, the
pydantic fields-set flags of its two optional fields (parts,
parameters): a field absent from the input keeps its default and is
excluded from a dump with exclude_unset.  For parts and parameters an
Option none denotes the Python value None. -/
structure ModelSection where
  path : String
  name : String
  framework : String
  version : String
  description : String
  license : String
  parts : Option (List ModelPart)
  parameters : Option YVal
  partsSet : Bool
  parametersSet : Bool

/-- ModelSection.model_validate (pydantic_kit.py lines 116-154):
required str fields (version with number coercion), parts defaulting to
the empty list, parameters an arbitrary tree defaulting to None, then
the inherited validate_path model validator. -/
def ModelSection.validate (fs : FS) (v : YVal) : Except PyErr ModelSection :=
  match v with
  | .map m => do
      let nm ← reqField m "name" getStr
      let p ← reqField m "path" getStr
      let fw ← reqField m "framework" getStr
      let ver ← reqField m "version" getStrCoerce
      let ds ← reqField m "description" getStr
      let lic ← reqField m "license" getStr
      let pparts : Option (List ModelPart) × Bool ←
        match ylookup m "parts" with
        | none => .ok (some [], false)
        | some .null => .ok (none, true)
        | some (.seq l) => do
            let ps ← l.mapM (ModelPart.validate fs)
            .ok (some ps, true)
        | some _ => .error (.validationError "Input should be a valid list")
      let pparams : Option YVal × Bool :=
        match ylookup m "parameters" with
        | none => (none, false)
        | some .null => (none, true)
        | some w => (some w, true)
      let p2 ← validate_path fs p
      .ok { path := p2, name := nm, framework := fw, version := ver,
            description := ds, license := lic,
            parts := pparts.1, parameters := pparams.1,
            partsSet := pparts.2, parametersSet := pparams.2 }
  | _ => .error (.validationError "Input should be a valid dictionary")

/-- The validated top-level manifest (PydanticKitfile, pydantic_kit.py
lines 157-192).  Instances only arise from Kitfile.build, which passes
all six keyword arguments explicitly, so every top-level field is in
the pydantic fields-set set. -/
structure PydKitfile where
  manifestVersion : String
  package : Package
  code : List CodeEntry
  datasets : List DatasetEntry
  docs : List DocsEntry
  model : Option ModelSection

/-- Python truthiness of a Package instance: a pydantic model defines
neither a bool nor a len conversion, so it is always truthy. -/
def pyTruthyPackage (_p : Package) : Bool := true

/-- PydanticKitfile.check_attrs (pydantic_kit.py lines 188-192):
any(getattr(self, e, None) for e in set(self.model_fields)) — the
generator ranges over ALL six fields, not only the four content
sections named in the error message.  Set iteration order is
unspecified in Python; the disjunction below lists package first,
which does not change the value of any. -/
def checkAttrs (k : PydKitfile) : Bool :=
  pyTruthyPackage k.package
    || (k.manifestVersion != "")
    || !k.code.isEmpty
    || !k.datasets.isEmpty
    || !k.docs.isEmpty
    || k.model.isSome

/-- PydanticKitfile construction as invoked by Kitfile.build: pydantic
validates the manifestVersion field (with number-to-str coercion), then
runs the check_attrs model validator, whose failure raises an
AttributeError (which pydantic propagates raw, since it is neither
ValueError nor AssertionError). -/
def PydanticKitfile.init (mvRaw : YVal) (pkg : Package)
    (code : List CodeEntry) (datasets : List DatasetEntry)
    (docs : List DocsEntry) (model : Option ModelSection) :
    Except PyErr PydKitfile := do
  let mv ← getStrCoerce mvRaw
  let k : PydKitfile :=
    { manifestVersion := mv, package := pkg, code := code,
      datasets := datasets, docs := docs, model := model }
  if checkAttrs k then
    .ok k
  else
    .error (.attributeError "At least one of code, datasets, docs, or model is required.")

/-- Iterating a Python value in a list comprehension: a list iterates
its elements; a non-iterable raises TypeError.  (Iterable non-list
values such as strings or dicts would instead fail per-element
validation; no claim exercises that corner.) -/
def iterList (v : YVal) : Except PyErr (List YVal) :=
  match v with
  | .seq l => .ok l
  | _ => .error (.typeError "object is not iterable")

/-- An optional build argument: Lean none is Python None (the default),
and a YAML null passed through load also arrives as Python None. -/
def omitNull (v : Option YVal) : Option YVal :=
  match v with
  | some .null => none
  | o => o

/-- Kitfile.build (kitfile.py lines 112-139): validates package, the
three entry lists (defaulting to empty when the argument is None) and
the model section, then constructs the pydantic model with all six
keyword arguments. -/
def Kitfile.build (fs : FS) (mv pkgRaw : YVal)
    (code datasets docs model : Option YVal) : Except PyErr PydKitfile := do
  let pkg ← Package.validate pkgRaw
  let cs ← match omitNull code with
    | none => .ok []
    | some v => do
        let l ← iterList v
        l.mapM (CodeEntry.validate fs)
  let dss ← match omitNull datasets with
    | none => .ok []
    | some v => do
        let l ← iterList v
        l.mapM (DatasetEntry.validate fs)
  let dcs ← match omitNull docs with
    | none => .ok []
    | some v => do
        let l ← iterList v
        l.mapM (DocsEntry.validate fs)
  let ms ← match omitNull model with
    | none => .ok none
    | some v => do
        let msec ← ModelSection.validate fs v
        .ok (some msec)
  PydanticKitfile.init mv pkg cs dss dcs ms

/-- ALLOWED_KEYS = set(PydanticKitfile.model_fields)
(pydantic_kit.py line 195). -/
def ALLOWED_KEYS : List String :=
  ["manifestVersion", "package", "code", "datasets", "docs", "model"]

/-- The keyword parameter names of Kitfile.build, used by Python when
binding build(**data). -/
def BUILD_PARAMS : List String :=
  ["manifestVersion", "package", "code", "datasets", "docs", "model"]

/-- Python keyword binding of self.build(**data) (kitfile.py line 165):
a key of data outside the parameter names raises TypeError, a missing
required parameter (manifestVersion or package) raises TypeError, and
otherwise each parameter receives the value from data or its None
default. -/
def bindAndBuild (fs : FS) (data : List (String × YVal)) :
    Except PyErr PydKitfile :=
  if data.any (fun e => !(BUILD_PARAMS.contains e.1)) then
    .error (.typeError "build got an unexpected keyword argument")
  else
    match ylookup data "manifestVersion", ylookup data "package" with
    | some mv, some pkg =>
        Kitfile.build fs mv pkg (ylookup data "code")
          (ylookup data "datasets") (ylookup data "docs")
          (ylookup data "model")
    | _, _ => .error (.typeError "build missing a required argument")

/-- The allowed-keys test of Kitfile.load (kitfile.py lines 162-163):
any(ALLOWED_KEYS.difference(data.keys())) — the difference collects the
allowed keys MISSING from the input, and any() over a set of non-empty
strings is exactly its non-emptiness, so load raises whenever some
allowed key is absent, and never because of an extra key. -/
def Kitfile.loadChecked (fs : FS) (data : List (String × YVal)) :
    Except PyErr PydKitfile :=
  if (ALLOWED_KEYS.filter (fun k => !((data.map (fun e => e.1)).contains k))).any
      (fun s => s != "") then
    .error (.valueError ("Kitfile must be a dictionary with allowed keys: "
      ++ String.intercalate ", " ALLOWED_KEYS))
  else
    bindAndBuild fs data

/-- The step of Kitfile.load after a successful parse (kitfile.py lines
162-165): data.keys() on a non-dictionary parse result (null, scalar or
sequence) raises AttributeError; on a dictionary the allowed-keys test
runs and then build(**data). -/
def afterParse (fs : FS) (v : YVal) : Except PyErr PydKitfile :=
  match v with
  | .map data => Kitfile.loadChecked fs data
  | _ => .error (.attributeError "object has no attribute keys")

/-- Outcome of yaml.safe_load on the file text: a data tree, or a
YAMLError carrying an optional problem mark (0-indexed line and
column). -/
inductive ParseResult where
  | ok (v : YVal)
  | err (problemMark : Option (Nat × Nat))

/-- The message built by the except-branch of Kitfile.load (kitfile.py
line 158) from a 0-indexed problem mark. -/
def parseErrMsg (line col : Nat) : String :=
  "Error parsing Kitfile at line" ++ toString (line + 1)
    ++ ", column:" ++ toString (col + 1) ++ "."

/-- Kitfile.load (kitfile.py lines 141-165): missing file raises
ValueError; a parse failure with a problem mark is re-raised as a
YAMLError annotated with 1-indexed line and column, one without a mark
is re-raised unchanged; a successful parse continues with the
allowed-keys test and build. -/
def Kitfile.load (fs : FS) (path : String) (fileExists : Bool)
    (pr : ParseResult) : Except PyErr PydKitfile :=
  if !fileExists then
    .error (.valueError ("Path " ++ path ++ " does not exist."))
  else
    match pr with
    | .err (some mark) => .error (.yamlError (parseErrMsg mark.1 mark.2))
    | .err none => .error .rawYamlError
    | .ok v => afterParse fs v

/-- model_dump of a Package: every Package field is required, so all
four are always set and none can be None; nothing is ever excluded. -/
def Package.dumpY (p : Package) : YVal :=
  .map [("name", .str p.name), ("version", .str p.version),
        ("description", .str p.description),
        ("authors", .seq (p.authors.map .str))]

/-- model_dump of a CodeEntry (all fields required). -/
def CodeEntry.dumpY (c : CodeEntry) : YVal :=
  .map [("path", .str c.path), ("description", .str c.description),
        ("license", .str c.license)]

/-- model_dump of a DatasetEntry (all fields required; the inherited
path field keeps the first position). -/
def DatasetEntry.dumpY (d : DatasetEntry) : YVal :=
  .map [("path", .str d.path), ("name", .str d.name),
        ("description", .str d.description), ("license", .str d.license)]

/-- model_dump of a DocsEntry (all fields required). -/
def DocsEntry.dumpY (d : DocsEntry) : YVal :=
  .map [("path", .str d.path), ("description", .str d.description)]

/-- model_dump of a ModelPart (all fields required). -/
def ModelPart.dumpY (p : ModelPart) : YVal :=
  .map [("path", .str p.path), ("name", .str p.name),
        ("type", .str p.type)]

/-- model_dump of a ModelSection with the exclude_unset and
exclude_none options applied recursively, as pydantic does: the two
optional fields (parts, parameters) are dropped when unset (under
exclude_unset) or when their value is None (under exclude_none). -/
def ModelSection.dumpY (exUnset exNone : Bool) (ms : ModelSection) : YVal :=
  .map (
    [("path", .str ms.path), ("name", .str ms.name),
     ("framework", .str ms.framework), ("version", .str ms.version),
     ("description", .str ms.description), ("license", .str ms.license)]
    ++ (if exUnset && !ms.partsSet then []
        else match ms.parts with
          | none => if exNone then [] else [("parts", .null)]
          | some ps => [("parts", .seq (ps.map ModelPart.dumpY))])
    ++ (if exUnset && !ms.parametersSet then []
        else match ms.parameters with
          | none => if exNone then [] else [("parameters", .null)]
          | some w => [("parameters", w)]))

/-- self.model_dump(exclude_unset=..., exclude_none=...) on a manifest
produced by Kitfile.build (kitfile.py line 178).  Kitfile.build passes
all six keyword arguments to the pydantic constructor (lines 132-139),
so every top-level field is in the fields-set set and exclude_unset
removes nothing at the top level; exclude_none removes the model field
exactly when it is None.  The entry lists are lists of models and are
never None on a built manifest. -/
def PydKitfile.modelDump (k : PydKitfile) (exUnset exNone : Bool) :
    List (String × YVal) :=
  [("manifestVersion", .str k.manifestVersion),
   ("package", k.package.dumpY),
   ("code", .seq (k.code.map CodeEntry.dumpY)),
   ("datasets", .seq (k.datasets.map DatasetEntry.dumpY)),
   ("docs", .seq (k.docs.map DocsEntry.dumpY))]
  ++ (match k.model with
      | none => if exNone then [] else [("model", .null)]
      | some ms => [("model", ms.dumpY exUnset exNone)])

/-- The event stream produced by the yaml.safe_dump representer as
invoked by Kitfile.to_yaml (kitfile.py lines 177-181): since to_yaml
passes sort_keys=False, mappings are emitted with their keys in
insertion order; scalars are rendered as pyyaml does (None as null,
booleans lowercase, integers in decimal, floats by their decimal
text, strings as plain text). -/
inductive YEvent where
  | scalar (s : String)
  | seqStart
  | seqEnd
  | mapStart
  | mapEnd
  | key (s : String)
  deriving DecidableEq, Repr

mutual

def yemit : YVal → List YEvent
  | .null => [.scalar "null"]
  | .bool b => [.scalar (if b then "true" else "false")]
  | .int n => [.scalar (toString n)]
  | .float ip frac => [.scalar (pyFloatStr ip frac)]
  | .str s => [.scalar s]
  | .seq l => .seqStart :: yemitSeq l ++ [.seqEnd]
  | .map m => .mapStart :: yemitMap m ++ [.mapEnd]

def yemitSeq : List YVal → List YEvent
  | [] => []
  | v :: t => yemit v ++ yemitSeq t

def yemitMap : List (String × YVal) → List YEvent
  | [] => []
  | (k, v) :: t => .key k :: (yemit v ++ yemitMap t)

end

/-- Kitfile.to_yaml (kitfile.py lines 167-181) viewed as the event
stream fed to the emitter: safe_dump of the model dump, with both
exclusion options driven by the single suppress_empty_values flag and
sort_keys=False. -/
def Kitfile.toYamlEvents (k : PydKitfile) (suppressEmptyValues : Bool) :
    List YEvent :=
  yemit (.map (k.modelDump suppressEmptyValues suppressEmptyValues))

/-- The mapping keys appearing in an event stream, in emission order. -/
def keysEmitted (evs : List YEvent) : List String :=
  evs.filterMap (fun e => match e with | .key k => some k | _ => none)

/-- Whether a data tree is a scalar (not a sequence or mapping). -/
def isScalarY (v : YVal) : Bool :=
  match v with
  | .seq _ => false
  | .map _ => false
  | _ => true

/-- Whether a data tree is a mapping. -/
def isMapY (v : YVal) : Bool :=
  match v with
  | .map _ => true
  | _ => false

/-- The raw attribute view of a Kitfile object: each slot is the value
stored in the instance dictionary (rendered as its data tree), or no
value at all when the attribute was never set.  Pydantic declares no
model_config, so validate_assignment is off and attribute assignment
stores the raw value without validation. -/
structure KitfileObj where
  manifestVersion : Option YVal
  package : Option YVal
  code : Option YVal
  datasets : Option YVal
  docs : Option YVal
  model : Option YVal

/-- The attribute view of a manifest produced by build or load: every
field was set by the pydantic constructor to its validated value. -/
def KitfileObj.ofBuilt (k : PydKitfile) : KitfileObj :=
  { manifestVersion := some (.str k.manifestVersion),
    package := some k.package.dumpY,
    code := some (.seq (k.code.map CodeEntry.dumpY)),
    datasets := some (.seq (k.datasets.map DatasetEntry.dumpY)),
    docs := some (.seq (k.docs.map DocsEntry.dumpY)),
    model := some (match k.model with
      | none => .null
      | some ms => ms.dumpY false false) }

/-- Kitfile.__init__ with no path argument (kitfile.py lines 109-110):
the body is only an if statement guarding self.load(path), so with
path=None the pydantic constructor never runs, no attribute is set and
no validator executes. -/
def kitfileInitNone : KitfileObj :=
  { manifestVersion := none, package := none, code := none,
    datasets := none, docs := none, model := none }

/-- Attribute assignment on a Kitfile object: with validate_assignment
off (the default, and PydanticKitfile sets no model_config), pydantic
stores the assigned value as-is without re-running any validator. -/
def setAttrRaw (o : KitfileObj) (attr : String) (v : YVal) : KitfileObj :=
  if attr = "manifestVersion" then { o with manifestVersion := some v }
  else if attr = "package" then { o with package := some v }
  else if attr = "code" then { o with code := some v }
  else if attr = "datasets" then { o with datasets := some v }
  else if attr = "docs" then { o with docs := some v }
  else if attr = "model" then { o with model := some v }
  else o

/-- Whether an Except value is a success. -/
def exceptIsOk (e : Except PyErr α) : Bool :=
  match e with
  | .ok _ => true
  | .error _ => false

/-- The schema invariants of the spec, as a predicate on the raw
attribute view: every field holds a value and re-validating those
values (the way build validates its inputs) succeeds.  This is the
spec-side notion used by claim C7 that every observable instance is
fully validated. -/
def validObjB (fs : FS) (o : KitfileObj) : Bool :=
  match o.manifestVersion, o.package, o.code, o.datasets, o.docs, o.model with
  | some mv, some pkg, some c, some d, some dc, some m =>
      exceptIsOk (Kitfile.build fs mv pkg (some c) (some d) (some dc)
        (match m with | .null => none | w => some w))
  | _, _, _, _, _, _ => false

/-!  Concrete fixtures used by the theorems below.  The filesystem has
working directory /home/user/proj containing README.md, a model
directory with weights.bin, and a src directory; /home/user/secret.txt
exists but lies outside the working directory. -/

def exFS : FS :=
  { cwd := ["home", "user", "proj"],
    entries := [["home", "user", "proj"],
                ["home", "user", "proj", "README.md"],
                ["home", "user", "proj", "src"],
                ["home", "user", "proj", "data.csv"],
                ["home", "user", "proj", "model"],
                ["home", "user", "proj", "model", "weights.bin"],
                ["home", "user", "secret.txt"]] }

def pkgMapY : YVal :=
  .map [("name", .str "p"), ("version", .str "0.1.0"),
        ("description", .str "d"), ("authors", .seq [.str "A"])]

def pkgP : Package :=
  { name := "p", version := "0.1.0", description := "d", authors := ["A"] }

def docMapY : YVal :=
  .map [("path", .str "README.md"), ("description", .str "readme")]

def docP : DocsEntry :=
  { path := "README.md", description := "readme" }

/-- A model section input whose parameters mapping lists its keys in
the order b, a (deliberately unsorted). -/
def msMapY : YVal :=
  .map [("name", .str "m"), ("path", .str "model"),
        ("framework", .str "tf"), ("version", .str "1"),
        ("description", .str "md"), ("license", .str "L"),
        ("parts", .seq []),
        ("parameters", .map [("b", .int 1), ("a", .int 2)])]

def msP : ModelSection :=
  { path := "model", name := "m", framework := "tf", version := "1",
    description := "md", license := "L", parts := some [],
    parameters := some (.map [("b", .int 1), ("a", .int 2)]),
    partsSet := true, parametersSet := true }

/-- The manifest built from the end-to-end example of the spec
(manifestVersion, package and one docs entry; code and datasets left to
their defaults, model absent). -/
def exKitDocs : PydKitfile :=
  { manifestVersion := "1.0", package := pkgP, code := [],
    datasets := [], docs := [docP], model := none }

/-- The same manifest with a model section carrying the unsorted
parameters mapping. -/
def exKitModel : PydKitfile :=
  { manifestVersion := "1.0", package := pkgP, code := [],
    datasets := [], docs := [docP], model := some msP }

/-- The manifest with every content section empty and no model,
exercising the check_attrs invariant. -/
def exKitEmpty : PydKitfile :=
  { manifestVersion := "1.0", package := pkgP, code := [],
    datasets := [], docs := [], model := none }

/-- The SchemaViolation message of the allowed-keys test in
Kitfile.load. -/
def allowedKeysMsg : String :=
  "Kitfile must be a dictionary with allowed keys: "
    ++ String.intercalate ", " ALLOWED_KEYS

/-! Helper lemmas about the event emitter. -/

theorem yemitMap_append (a b : List (String × YVal)) :
    yemitMap (a ++ b) = yemitMap a ++ yemitMap b := by
  induction a with
  | nil => rfl
  | cons p t ih =>
      cases p with
      | mk k v => simp [yemitMap, ih]

theorem yemit_infix_of_mem_yemitMap {p : String × YVal}
    {m : List (String × YVal)} (h : p ∈ m) :
    yemit p.2 <:+: yemitMap m := by
  induction m with
  | nil => cases h
  | cons q t ih =>
      rcases List.mem_cons.mp h with h1 | h2
      · subst h1
        cases p with
        | mk k v =>
            exact ⟨[.key k], yemitMap t, by simp [yemitMap]⟩
      · have htail : yemitMap t <:+: yemitMap (q :: t) := by
          cases q with
          | mk k v =>
              exact ⟨.key k :: yemit v, [], by simp [yemitMap]⟩
        exact (ih h2).trans htail

theorem yemit_infix_of_mem_map {p : String × YVal}
    {m : List (String × YVal)} (h : p ∈ m) :
    yemit p.2 <:+: yemit (.map m) := by
  have h1 : yemit p.2 <:+: yemitMap m := yemit_infix_of_mem_yemitMap h
  have h2 : yemitMap m <:+: yemit (.map m) :=
    ⟨[.mapStart], [.mapEnd], by simp [yemit]⟩
  exact h1.trans h2

theorem keysEmitted_append (a b : List YEvent) :
    keysEmitted (a ++ b) = keysEmitted a ++ keysEmitted b := by
  simp [keysEmitted]

theorem keysEmitted_yemit_scalar {v : YVal} (h : isScalarY v = true) :
    keysEmitted (yemit v) = [] := by
  cases v <;> simp_all [isScalarY, yemit, keysEmitted]

theorem keysEmitted_yemitMap_flat {l : List (String × YVal)}
    (h : ∀ p ∈ l, isScalarY p.2 = true) :
    keysEmitted (yemitMap l) = l.map Prod.fst := by
  induction l with
  | nil => rfl
  | cons p t ih =>
      cases p with
      | mk k v =>
          have hv : isScalarY v = true := h ⟨k, v⟩ (List.mem_cons_self _ _)
          have ht : ∀ q ∈ t, isScalarY q.2 = true :=
            fun q hq => h q (List.mem_cons_of_mem _ hq)
          have h1 : keysEmitted (yemitMap ((k, v) :: t)) =
              k :: keysEmitted (yemit v ++ yemitMap t) := rfl
          rw [h1, keysEmitted_append, keysEmitted_yemit_scalar hv, ih ht]
          rfl

theorem keysEmitted_yemit_map_flat {l : List (String × YVal)}
    (h : ∀ p ∈ l, isScalarY p.2 = true) :
    keysEmitted (yemit (.map l)) = l.map Prod.fst := by
  have h1 : keysEmitted (yemit (.map l)) =
      keysEmitted (yemitMap l ++ [YEvent.mapEnd]) := rfl
  rw [h1, keysEmitted_append, keysEmitted_yemitMap_flat h]
  simp [keysEmitted]

/-- C1: the claim states that a mapping with valid manifestVersion and
package but all four content sections empty or absent is rejected with
a SchemaViolation.  The code does not do this: check_attrs ranges over
all six model fields and the required package field is always truthy,
so the validator never fires and the all-empty manifest is
constructed. -/
theorem c1_empty_content_manifest_is_constructed :
    (∀ k : PydKitfile, checkAttrs k = true) ∧
    Kitfile.build exFS (.str "1.0") pkgMapY (some (.seq [])) (some (.seq []))
      (some (.seq [])) none = .ok exKitEmpty := by
  refine ⟨fun k => ?_, rfl⟩
  simp [checkAttrs, pyTruthyPackage]

/-- C2: the claim states that an input mapping with an extra top-level
key fails with SchemaViolation.  The code tests for allowed keys
missing from the input instead: with all six allowed keys present plus
an extra key the allowed-keys test passes and build(**data) raises a
TypeError; the allowed-keys ValueError fires only when some allowed key
is absent. -/
theorem c2_extra_key_raises_type_error_not_schema_violation :
    Kitfile.loadChecked exFS
      [("manifestVersion", .str "1.0"), ("package", pkgMapY),
       ("code", .null), ("datasets", .null), ("docs", .seq [docMapY]),
       ("model", .null), ("extra", .int 1)] =
      .error (.typeError "build got an unexpected keyword argument") ∧
    Kitfile.loadChecked exFS
      [("manifestVersion", .str "1.0"), ("package", pkgMapY),
       ("docs", .seq [docMapY]), ("extra", .int 1)] =
      .error (.valueError allowedKeysMsg) :=
  ⟨rfl, rfl⟩

/-- C3: the claim states that serializing a built manifest and loading
the result yields the same manifest.  The code rejects its own output
whenever the model section is absent: to_yaml drops the model key
(exclude_none) and the inverted allowed-keys test of load then raises
the allowed-keys ValueError. -/
theorem c3_roundtrip_rejects_serialized_output_without_model :
    Kitfile.build exFS (.str "1.0") pkgMapY none none
      (some (.seq [docMapY])) none = .ok exKitDocs ∧
    afterParse exFS (.map (exKitDocs.modelDump true true)) =
      .error (.valueError allowedKeysMsg) :=
  ⟨rfl, rfl⟩

/-- Helper: binding a successful computation into a pure constructor is
the functorial map. -/
theorem exceptBindOk (e : Except PyErr α) (g : α → β) :
    (e.bind fun x => .ok (g x)) = e.map g := by
  cases e <;> rfl

/-- C4: for every path-bearing entry type, construction fails with
PathNotFound (FileNotFoundError) when the declared path does not exist;
an existing absolute path inside the working directory is rewritten
relative to it with forward-slash separators; an existing absolute path
outside the working directory fails with InvalidPath (the ValueError of
pathlib surfacing as a ValidationError).  The last five conjuncts show
that each entry type delegates exactly to validate_path. -/
theorem c4_path_validation_and_rewrite (fs : FS) (s : String) :
    (pathExists fs s = false →
      validate_path fs s =
        .error (.fileNotFoundError ("Path " ++ s ++ " not found."))) ∧
    (∀ rest, pathExists fs s = true → (parsePath s).1 = true →
      relativeTo (parsePath s).2 fs.cwd = some rest →
      validate_path fs s = .ok (asPosix rest)) ∧
    (pathExists fs s = true → (parsePath s).1 = true →
      relativeTo (parsePath s).2 fs.cwd = none →
      validate_path fs s =
        .error (.validationError
          "Path must be relative to the current working directory.")) ∧
    (CodeEntry.validate fs
        (.map [("path", .str s), ("description", .str "d"),
               ("license", .str "l")]) =
      (validate_path fs s).map
        (fun p2 => { path := p2, description := "d", license := "l" })) ∧
    (DatasetEntry.validate fs
        (.map [("name", .str "n"), ("path", .str s),
               ("description", .str "d"), ("license", .str "l")]) =
      (validate_path fs s).map
        (fun p2 => { path := p2, name := "n", description := "d",
                     license := "l" })) ∧
    (DocsEntry.validate fs
        (.map [("description", .str "d"), ("path", .str s)]) =
      (validate_path fs s).map
        (fun p2 => { path := p2, description := "d" })) ∧
    (ModelPart.validate fs
        (.map [("name", .str "n"), ("path", .str s), ("type", .str "t")]) =
      (validate_path fs s).map
        (fun p2 => { path := p2, name := "n", type := "t" })) ∧
    (ModelSection.validate fs
        (.map [("name", .str "n"), ("path", .str s),
               ("framework", .str "f"), ("version", .str "1"),
               ("description", .str "d"), ("license", .str "l")]) =
      (validate_path fs s).map
        (fun p2 => { path := p2, name := "n", framework := "f",
                     version := "1", description := "d", license := "l",
                     parts := some [], parameters := none,
                     partsSet := false, parametersSet := false })) := by
  refine ⟨?_, ?_, ?_, ?_, ?_, ?_, ?_, ?_⟩
  · intro h
    simp [validate_path, h]
  · intro rest h1 h2 h3
    simp [validate_path, h1, h2, h3]
  · intro h1 h2 h3
    simp [validate_path, h1, h2, h3]
  · exact exceptBindOk (validate_path fs s) _
  · exact exceptBindOk (validate_path fs s) _
  · exact exceptBindOk (validate_path fs s) _
  · exact exceptBindOk (validate_path fs s) _
  · exact exceptBindOk (validate_path fs s) _

/-- Witness for C4, at concrete inputs over the example filesystem:
a missing relative path, an absolute path under the working directory
(rewritten with forward slashes), and an existing absolute path outside
the working directory. -/
theorem c4_path_validation_witness :
    validate_path exFS "does/not/exist" =
      .error (.fileNotFoundError "Path does/not/exist not found.") ∧
    validate_path exFS "/home/user/proj/model/weights.bin" =
      .ok "model/weights.bin" ∧
    validate_path exFS "/home/user/secret.txt" =
      .error (.validationError
        "Path must be relative to the current working directory.") :=
  ⟨(c4_path_validation_and_rewrite exFS "does/not/exist").1 (by rfl),
   (c4_path_validation_and_rewrite exFS "/home/user/proj/model/weights.bin").2.1
     ["model", "weights.bin"] (by rfl) (by rfl) (by rfl),
   (c4_path_validation_and_rewrite exFS "/home/user/secret.txt").2.2.1
     (by rfl) (by rfl) (by rfl)⟩

/-- C5 counterexample: the claim states that serializing the spec
example (built with only manifestVersion, package and docs) with
suppressEmpty=true omits the code, datasets and model keys.  In the
code, build passes all six keyword arguments explicitly, so every
top-level field counts as set and exclude_unset removes nothing: the
empty code and datasets lists are still emitted (only the None-valued
model key is dropped by exclude_none). -/
theorem c5_counterexample_empty_lists_still_emitted :
    Kitfile.build exFS (.str "1.0") pkgMapY none none
      (some (.seq [docMapY])) none = .ok exKitDocs ∧
    (exKitDocs.modelDump true true).map Prod.fst =
      ["manifestVersion", "package", "code", "datasets", "docs"] ∧
    "code" ∈ (exKitDocs.modelDump true true).map Prod.fst ∧
    "datasets" ∈ (exKitDocs.modelDump true true).map Prod.fst := by
  refine ⟨rfl, rfl, ?_, ?_⟩ <;> decide

/-- C5 as amended: on a built manifest, serialization with
suppressEmpty=true omits exactly the fields whose value is None — that
is, only the model key when the model section is absent; fields set to
empty sequences (code, datasets, docs) are still emitted.  With
suppressEmpty=false every field is emitted. -/
theorem c5_suppress_omits_exactly_none_valued_fields (k : PydKitfile) :
    ((k.modelDump true true).map Prod.fst =
      if k.model.isSome then ALLOWED_KEYS
      else ["manifestVersion", "package", "code", "datasets", "docs"]) ∧
    (k.modelDump false false).map Prod.fst = ALLOWED_KEYS := by
  cases hm : k.model <;> simp [PydKitfile.modelDump, hm, ALLOWED_KEYS]

/-- C6: numeric input for manifestVersion, Package.version and
ModelSection.version is accepted and coerced to its decimal string
form (integers and floats alike, e.g. the YAML float 1.0 to the string
1.0); string input passes through unchanged. -/
theorem c6_numeric_version_input_coerced_to_string (n ip : Int)
    (fr s : String) :
    getStrCoerce (.int n) = .ok (toString n) ∧
    getStrCoerce (.float ip fr) = .ok (pyFloatStr ip fr) ∧
    getStrCoerce (.str s) = .ok s ∧
    Package.validate
        (.map [("name", .str "p"), ("version", .float ip fr),
               ("description", .str "d"), ("authors", .seq [.str "A"])]) =
      .ok { name := "p", version := pyFloatStr ip fr, description := "d",
            authors := ["A"] } ∧
    Package.validate
        (.map [("name", .str "p"), ("version", .int n),
               ("description", .str "d"), ("authors", .seq [.str "A"])]) =
      .ok { name := "p", version := toString n, description := "d",
            authors := ["A"] } ∧
    Kitfile.build exFS (.float ip fr) pkgMapY none none
        (some (.seq [docMapY])) none =
      .ok { manifestVersion := pyFloatStr ip fr, package := pkgP,
            code := [], datasets := [], docs := [docP], model := none } ∧
    ModelSection.validate exFS
        (.map [("name", .str "m"), ("path", .str "model"),
               ("framework", .str "tf"), ("version", .float ip fr),
               ("description", .str "md"), ("license", .str "L")]) =
      .ok { path := "model", name := "m", framework := "tf",
            version := pyFloatStr ip fr, description := "md",
            license := "L", parts := some [], parameters := none,
            partsSet := false, parametersSet := false } :=
  ⟨rfl, rfl, rfl, rfl, rfl, rfl, rfl⟩

/-- C7 counterexample: the claim states that every observable Kitfile
instance satisfies the schema invariants, including one constructed
with no path argument.  Kitfile() with path=None never runs the
pydantic constructor, so the resulting instance has no field set and
satisfies no invariant. -/
theorem c7_counterexample_unvalidated_empty_instance :
    validObjB exFS kitfileInitNone = false := rfl

/-- C7 as amended: validation runs only inside build and load — an
instance produced by build satisfies the invariants, but a Kitfile
constructed with no path escapes with no fields set and no validator
run, and attribute assignment (validate_assignment is not enabled)
stores the raw value without re-validation, so mutation can produce an
invariant-violating instance. -/
theorem c7_validation_only_in_build_and_assignment_unchecked :
    Kitfile.build exFS (.str "1.0") pkgMapY none none
      (some (.seq [docMapY])) none = .ok exKitDocs ∧
    validObjB exFS (KitfileObj.ofBuilt exKitDocs) = true ∧
    validObjB exFS
      (setAttrRaw (KitfileObj.ofBuilt exKitDocs) "package" (.str "oops")) =
      false ∧
    validObjB exFS kitfileInitNone = false :=
  ⟨rfl, rfl, rfl, rfl⟩

/-- C8 counterexample: the claim states that mappings inside
ModelSection.parameters are serialized with their keys sorted
alphabetically.  to_yaml calls safe_dump with sort_keys=False, so the
parameters mapping with insertion order b, a is emitted in that order,
not in the sorted order a, b. -/
theorem c8_counterexample_parameter_keys_not_sorted :
    Kitfile.build exFS (.str "1.0") pkgMapY none none
      (some (.seq [docMapY])) (some msMapY) = .ok exKitModel ∧
    yemit (.map [("b", .int 1), ("a", .int 2)]) <:+:
      Kitfile.toYamlEvents exKitModel true ∧
    keysEmitted (yemit (.map [("b", .int 1), ("a", .int 2)])) = ["b", "a"] ∧
    ["b", "a"] ≠ ["a", "b"] := by
  refine ⟨rfl, ?_, rfl, by decide⟩
  decide

/-- C8 as amended: the serializer emits the keys of mappings inside
ModelSection.parameters in their original insertion order (safe_dump is
invoked with sort_keys=False); no alphabetical sorting is applied.
Scalars are emitted in their canonical decimal or plain string form by
the emitter. -/
theorem c8_parameter_maps_serialized_in_insertion_order
    (k : PydKitfile) (ms : ModelSection) (l : List (String × YVal))
    (hm : k.model = some ms) (hp : ms.parameters = some (.map l))
    (hs : ms.parametersSet = true)
    (hflat : ∀ p ∈ l, isScalarY p.2 = true) :
    yemit (.map l) <:+: Kitfile.toYamlEvents k true ∧
    keysEmitted (yemit (.map l)) = l.map Prod.fst := by
  constructor
  · have hmem1 : (("parameters", YVal.map l) : String × YVal) ∈
        ([("path", YVal.str ms.path), ("name", YVal.str ms.name),
          ("framework", YVal.str ms.framework),
          ("version", YVal.str ms.version),
          ("description", YVal.str ms.description),
          ("license", YVal.str ms.license)]
         ++ (if true && !ms.partsSet then []
             else match ms.parts with
               | none => if true then [] else [("parts", YVal.null)]
               | some ps => [("parts", YVal.seq (ps.map ModelPart.dumpY))])
         ++ (if true && !ms.parametersSet then []
             else match ms.parameters with
               | none => if true then [] else [("parameters", YVal.null)]
               | some w => [("parameters", w)])) := by
      rw [hs, hp]
      simp
    have h1 : yemit (.map l) <:+: yemit (ms.dumpY true true) :=
      yemit_infix_of_mem_map (p := ("parameters", .map l)) hmem1
    have hmem2 : (("model", ms.dumpY true true) : String × YVal) ∈
        k.modelDump true true := by
      simp [PydKitfile.modelDump, hm]
    have h2 : yemit (ms.dumpY true true) <:+:
        yemit (.map (k.modelDump true true)) :=
      yemit_infix_of_mem_map (p := ("model", ms.dumpY true true)) hmem2
    exact h1.trans h2
  · exact keysEmitted_yemit_map_flat hflat

/-- Witness for C8 as amended, at the concrete manifest whose
parameters mapping lists b before a. -/
theorem c8_insertion_order_witness :
    yemit (.map [("b", .int 1), ("a", .int 2)]) <:+:
      Kitfile.toYamlEvents exKitModel true ∧
    keysEmitted (yemit (.map [("b", .int 1), ("a", .int 2)])) =
      [("b", YVal.int 1), ("a", YVal.int 2)].map Prod.fst :=
  c8_parameter_maps_serialized_in_insertion_order exKitModel msP
    [("b", .int 1), ("a", .int 2)] rfl rfl rfl (by decide)

/-- C9: loading an existing file whose text is malformed YAML with a
reported error location re-raises a YAMLError (the ParseError of the
spec) whose message carries the 1-indexed line and column of the
failure point, instead of surfacing the raw parser exception. -/
theorem c9_parse_error_message_has_line_and_column (fs : FS) (p : String)
    (line col : Nat) :
    Kitfile.load fs p true (.err (some (line, col))) =
      .error (.yamlError (parseErrMsg line col)) ∧
    (∃ pre post, parseErrMsg line col =
      pre ++ toString (line + 1) ++ post) ∧
    (∃ pre post, parseErrMsg line col =
      pre ++ toString (col + 1) ++ post) := by
  refine ⟨rfl,
    ⟨"Error parsing Kitfile at line",
     ", column:" ++ toString (col + 1) ++ ".", ?_⟩,
    ⟨"Error parsing Kitfile at line" ++ toString (line + 1) ++ ", column:",
     ".", ?_⟩⟩
  · simp [parseErrMsg, String.append_assoc]
  · simp [parseErrMsg, String.append_assoc]

/-- C10: when the file exists and its text parses to something other
than a mapping (null from an empty file, a bare scalar, or a sequence),
load raises an untyped host AttributeError from calling keys() on the
parsed value — none of PathNotFound, ParseError or SchemaViolation —
and no validated Kitfile results. -/
theorem c10_non_mapping_parse_raises_attribute_error (fs : FS) (p : String)
    (v : YVal) (h : isMapY v = false) :
    Kitfile.load fs p true (.ok v) =
      .error (.attributeError "object has no attribute keys") := by
  cases v <;> simp_all [isMapY, Kitfile.load, afterParse]

/-- Witness for C10 at the empty-file parse result null. -/
theorem c10_non_mapping_witness :
    Kitfile.load exFS "Kitfile" true (.ok .null) =
      .error (.attributeError "object has no attribute keys") :=
  c10_non_mapping_parse_raises_attribute_error exFS "Kitfile" .null (by rfl)
